import Mathlib

/-!
Verification of the San Pedro court-report auto-filler (`app.py`).

Free-text fields are modelled as lists of characters; Python's
case-insensitive substring tests (`k in s.upper()`) are modelled with an
explicit executable substring function on upper-cased character lists.
Report workbooks are modelled as a list of sheet names plus a cell map
from (sheet, column, row) to a cell value that is empty, an integer, or a
text string; `try/except`-guarded read-modify-write cell updates are
modelled by `incrAt`, which skips the write exactly when Python's
`curr + 1` would raise (non-empty string current value).
-/

/-- Free text, as a list of characters. -/
abbrev Str := List Char

/-- Python `s.upper()` on our text model. -/
def up (s : Str) : Str := s.map Char.toUpper

/-- `isPrefOf n h` holds when `n` is an initial segment of `h`. -/
def isPrefOf : Str → Str → Bool
  | [], _ => true
  | _ :: _, [] => false
  | a :: as, b :: bs => a == b && isPrefOf as bs

/-- Python's substring test `n in h` on our text model. -/
def hasSub (n : Str) : Str → Bool
  | [] => n.isEmpty
  | c :: t => isPrefOf n (c :: t) || hasSub n t

/-- The police/government complainant condition of `classify_crime_sheet1`
(line 64 of `app.py`): some police keyword occurs in the upper-cased
complainant and `"MINOR"` does not.  Takes the already upper-cased text. -/
def policeCond (v : Str) : Bool :=
  (hasSub "POLICE".toList v || hasSub "PC ".toList v ||
   hasSub "CPL ".toList v || hasSub "GOB".toList v) &&
  !(hasSub "MINOR".toList v)

/-- Body of `classify_crime_sheet1` after the two `.upper()` calls:
the first-match keyword cascade mapping (charge, complainant) to a Sheet-1
row number. -/
def classifyUp (c v : Str) : Nat :=
  if policeCond v then 25
  else if hasSub "ESCAPE".toList c then 24
  else if hasSub "PERJURY".toList c then 23
  else if hasSub "DISORDERLY".toList c || hasSub "ABUSIVE".toList c ||
          hasSub "THREAT".toList c then 22
  else if hasSub "RAPE".toList c then 27
  else if hasSub "SEXUAL ASSAULT".toList c then 28
  else if hasSub "UNLAWFUL SEXUAL".toList c then 29
  else if hasSub "UNNATURAL".toList c then 30
  else if hasSub "ATTEMPT".toList c && hasSub "MURDER".toList c then 35
  else if hasSub "MURDER".toList c then 33
  else if hasSub "MANSLAUGHTER".toList c then 34
  else if hasSub "GRIEVOUS".toList c then 36
  else if hasSub "WOUNDING".toList c then 37
  else if hasSub "HARM".toList c then 38
  else if hasSub "AGGRAVATED ASSAULT".toList c then 39
  else if hasSub "COMMON ASSAULT".toList c then 40
  else if hasSub "ROBBERY".toList c then 43
  else if hasSub "BURGLARY".toList c then 44
  else if hasSub "THEFT".toList c then 45
  else if hasSub "DECEPTION".toList c || hasSub "FRAUD".toList c then 46
  else if hasSub "HANDLING".toList c then 47
  else if hasSub "DAMAGE".toList c then 48
  else if hasSub "ARSON".toList c then 49
  else if hasSub "FORGERY".toList c then 52
  else if hasSub "DRUG".toList c || hasSub "CANNABIS".toList c then 54
  else if hasSub "PIPE".toList c then 57
  else if hasSub "VEHICLE".toList c then 58
  else if hasSub "TRAFFIC".toList c || hasSub "MOTOR".toList c ||
          hasSub "LICENSE".toList c then 59
  else if hasSub "FIREARM".toList c || hasSub "AMMUNITION".toList c then 59
  else 59

/-- `classify_crime_sheet1(charge, victim)` from `app.py`: upper-case both
inputs, then run the first-match cascade. -/
def classify_crime_sheet1 (charge victim : Str) : Nat :=
  classifyUp (up charge) (up victim)

/-- `classify_statutory_sheet8(charge)` from `app.py`: Sheet-8 statutory
row for a charge text. -/
def classify_statutory_sheet8 (charge : Str) : Nat :=
  let c := up charge
  if hasSub "DRUG".toList c || hasSub "CANNABIS".toList c then 12
  else if hasSub "FIREARM".toList c || hasSub "AMMUNITION".toList c then 13
  else if hasSub "LIQUOR".toList c then 14
  else if hasSub "POLICE".toList c then 15
  else if hasSub "GAMBLING".toList c then 16
  else if hasSub "TRAFFIC".toList c || hasSub "MOTOR".toList c ||
          hasSub "LICENSE".toList c then 17
  else 18

/-- Disposition outcome of a remark text. -/
inductive Disp | CONVICTED | DISMISSED | NOLLE | OTHER
deriving DecidableEq, Repr

/-- `parse_disposition(remark)` from `app.py`. -/
def parse_disposition (remark : Str) : Disp :=
  let r := up remark
  if hasSub "CONVICTED".toList r || hasSub "GUILTY".toList r ||
     hasSub "FINE".toList r || hasSub "PRISON".toList r then .CONVICTED
  else if hasSub "ACQUITTED".toList r || hasSub "DISMISSED".toList r ||
          hasSub "STRUCK".toList r || hasSub "DISCHARGED".toList r then .DISMISSED
  else if hasSub "WITHDRAWN".toList r || hasSub "NOLLE".toList r then .NOLLE
  else .OTHER

/-- Sentence kind of a further-particulars text. -/
inductive Sent | FINE | PRISON | PROBATION | REFORMATORY | OTHER
deriving DecidableEq, Repr

/-- `parse_sentence(sentence_text)` from `app.py`. -/
def parse_sentence (t : Str) : Sent :=
  let s := up t
  if hasSub "FINE".toList s || hasSub "$".toList s then .FINE
  else if hasSub "PRISON".toList s || hasSub "IMPRISONMENT".toList s ||
          hasSub "CONFINEMENT".toList s || hasSub "MONTHS".toList s ||
          hasSub "YEARS".toList s then .PRISON
  else if hasSub "PROBATION".toList s || hasSub "BOND".toList s then .PROBATION
  else if hasSub "REFORM".toList s || hasSub "SCHOOL".toList s then .REFORMATORY
  else .OTHER

/-- An age field after Python's `int(age)` attempt: `some a` when the
conversion succeeds, `none` when it raises. -/
abbrev AgeVal := Option Int

/-- `is_juvenile(age)` from `app.py`: `int(age) <= 16`, `False` when the
conversion raises. -/
def is_juvenile (age : AgeVal) : Bool :=
  match age with
  | some a => a ≤ 16
  | none => false

/-- The `'F' not in str(gender).upper()` male test used by
`get_age_col_sheet5` and the convicted loop of `fill_all_sheets`. -/
def isMaleOf (g : Str) : Bool := !(hasSub ['F'] (up g))

/-- `get_age_col_sheet5(age, gender)` from `app.py`: Sheet-5 column letter
for an age/gender pair, `none` when the age does not convert. -/
def get_age_col_sheet5 (age : AgeVal) (gender : Str) : Option String :=
  let male := isMaleOf gender
  match age with
  | none => none
  | some a =>
    if a ≤ 16 then some (if male then "B" else "C")
    else if 17 ≤ a ∧ a ≤ 25 then some (if male then "D" else "E")
    else if 26 ≤ a ∧ a ≤ 35 then some (if male then "F" else "G")
    else if 36 ≤ a ∧ a ≤ 45 then some (if male then "H" else "I")
    else if 46 ≤ a then some (if male then "J" else "K")
    else none

/-- A workbook cell value: absent, an integer, or a text string. -/
inductive CellVal
  | empty
  | num (n : Int)
  | str (s : Str)
deriving DecidableEq, Repr

/-- A workbook: the sheet names present in the template, plus the value of
every cell, addressed by (sheet name, column letter, row number). -/
structure Workbook where
  sheetnames : List String
  cells : String → String → Nat → CellVal

/-- Overwrite one cell. -/
def Workbook.setCell (wb : Workbook) (s col : String) (r : Nat) (v : CellVal) :
    Workbook :=
  { wb with
    cells := fun s' col' r' =>
      if s' = s ∧ col' = col ∧ r' = r then v else wb.cells s' col' r' }

/-- The `try: curr = ws[addr].value or 0; ws[addr] = curr + 1 except: pass`
pattern of `fill_all_sheets`: an empty cell and the falsy values `0` and
`""` read as `0`; a non-empty string makes `curr + 1` raise `TypeError`,
which is swallowed, leaving the cell unchanged. -/
def incrAt (wb : Workbook) (s col : String) (r : Nat) : Workbook :=
  match wb.cells s col r with
  | .empty => wb.setCell s col r (.num 1)
  | .num n => wb.setCell s col r (.num (n + 1))
  | .str cs => if cs = [] then wb.setCell s col r (.num 1) else wb

/-- A write through the loop variable `ws`: when `ws` was never bound the
`NameError` is swallowed by the surrounding `try`, so nothing happens. -/
def incrWs (wb : Workbook) (w : Option String) (col : String) (r : Nat) :
    Workbook :=
  match w with
  | none => wb
  | some s => incrAt wb s col r

/-- One normalized input row, after `smart_read_excel` and the
per-field `row.get` defaults of `fill_all_sheets`. -/
structure Row where
  caseid : Option Str
  charge : Str
  victim : Str
  remark : Str
  gender : Str
  sentence : Str
  age : AgeVal
  dateArr : Option (Nat × Int)
  dateDisp : Option (Nat × Int)

/-- A dedup key: either a case id or a row index. -/
inductive CaseKey
  | cid (c : Str)
  | pos (i : Nat)
deriving DecidableEq, Repr

/-- The dedup key `row.get('CASEID', idx)`: the case id when the column is
present, otherwise the row index. -/
def keyOf (r : Row) (idx : Nat) : CaseKey :=
  match r.caseid with
  | some c => .cid c
  | none => .pos idx

/-- The data-processing loop of `fill_all_sheets` (lines 144-155): one
pass over the rows, collecting the classified Sheet-1 row number of every
row (`rows_sheet3`) and, deduplicated by case key keeping the first
occurrence, of every distinct case (`rows_sheet1`).  Returns
(`rows_sheet1`, `rows_sheet3`). -/
def collectRows : List Row → Nat → List CaseKey → List Nat × List Nat
  | [], _, _ => ([], [])
  | r :: t, idx, seen =>
    let rn := classify_crime_sheet1 r.charge r.victim
    let k := keyOf r idx
    let rest := collectRows t (idx + 1) (if k ∈ seen then seen else k :: seen)
    (if k ∈ seen then rest.1 else rn :: rest.1, rn :: rest.2)

/-- The case keys of a row list, starting at index `idx`. -/
def keysOf : List Row → Nat → List CaseKey
  | [], _ => []
  | r :: t, idx => keyOf r idx :: keysOf t (idx + 1)

/-- Report mode: the `"New"` / `"Disposed"` string passed to
`fill_all_sheets`. -/
inductive Mode | New | Disposed
deriving DecidableEq, Repr

/-- The loop state of `fill_all_sheets`: the workbook being mutated plus
the current value of the loop variable `ws` (the most recently bound
worksheet, `none` while no binding has run). -/
structure St where
  wb : Workbook
  ws : Option String

/-- The Sheet-1 / Sheet-3 filling blocks: when the sheet exists, bind `ws`
and add one count per collected row number in the mode's column. -/
def fillSheet13 (st : St) (name col : String) (rows : List Nat) : St :=
  if name ∈ st.wb.sheetnames then
    { wb := rows.foldl (fun w r => incrAt w name col r) st.wb, ws := some name }
  else st

/-- One row of the Sheet-8 statutory loop. -/
def sheet8Step (mode : Mode) (w : Workbook) (r : Row) : Workbook :=
  let statRow := classify_statutory_sheet8 r.charge
  match mode with
  | .New => incrAt w "Sheet8" "C" statRow
  | .Disposed =>
    match parse_disposition r.remark with
    | .CONVICTED => incrAt w "Sheet8" "E" statRow
    | .DISMISSED => incrAt w "Sheet8" "F" statRow
    | _ => w

/-- The Sheet-8 block: when the sheet exists, bind `ws` and run the
statutory loop over every row. -/
def fillSheet8 (st : St) (df : List Row) (mode : Mode) : St :=
  if "Sheet8" ∈ st.wb.sheetnames then
    { wb := df.foldl (sheet8Step mode) st.wb, ws := some "Sheet8" }
  else st

/-- One row of the Sheet-2 disposal-breakdown loop. -/
def sheet2Step (w : Workbook) (r : Row) : Workbook :=
  let rn := classify_crime_sheet1 r.charge r.victim
  match parse_disposition r.remark with
  | .CONVICTED => incrAt w "Sheet2" "E" rn
  | .DISMISSED => incrAt w "Sheet2" "C" rn
  | .NOLLE => incrAt w "Sheet2" "D" rn
  | .OTHER => w

/-- The Sheet-2 block: when the sheet exists, bind `ws` and run the
disposal loop over every row. -/
def fillSheet2 (st : St) (df : List Row) : St :=
  if "Sheet2" ∈ st.wb.sheetnames then
    { wb := df.foldl sheet2Step st.wb, ws := some "Sheet2" }
  else st

/-- Sheet-4 sentence column for a convicted person. -/
def sent_col_sheet4 (s : Sent) (male : Bool) : Option String :=
  match s with
  | .PRISON => some (if male then "D" else "E")
  | .PROBATION => some (if male then "F" else "G")
  | .FINE => some (if male then "H" else "I")
  | _ => none

/-- Sheet-7 juvenile sentence column. -/
def sent_col_sheet7 (s : Sent) : Option String :=
  match s with
  | .PRISON => some "B"
  | .PROBATION => some "C"
  | .FINE => some "D"
  | .REFORMATORY => some "E"
  | _ => none

/-- Sheet-9 statutory punishment column. -/
def sent_col_sheet9 (s : Sent) (male : Bool) : Option String :=
  match s with
  | .PRISON => some (if male then "D" else "E")
  | .PROBATION => some (if male then "B" else "C")
  | .FINE => some (if male then "F" else "G")
  | _ => none

/-- A `ws = wb[name]` sheet block of the convicted loop: when the sheet
exists, bind `ws` to it and, when a target column was selected, add one
count at the given row of that sheet. -/
def bindIncr (st : St) (name : String) (c : Option String) (row : Nat) : St :=
  if name ∈ st.wb.sheetnames then
    let b : St := { st with ws := some name }
    match c with
    | some col => { b with wb := incrAt b.wb name col row }
    | none => b
  else st

/-- The juvenile-offense block (lines 241-243 of `app.py`): guarded by the
existence of `'Sheet6'` in the workbook, but writing through the stale
loop variable `ws`, which was never rebound to Sheet6. -/
def sheet6Blk (st : St) (row : Nat) : St :=
  if "Sheet6" ∈ st.wb.sheetnames then
    { st with wb := incrWs st.wb st.ws "F" row }
  else st

/-- The juvenile section of the convicted loop (lines 236-251): when the
row's age is juvenile, run the Sheet-6-guarded stale-`ws` write at row
`rn - 14` and then the Sheet-7 sentence block at the same row; otherwise
nothing. -/
def juvBlks (st : St) (r : Row) (rn : Nat) (sent : Sent) : St :=
  if is_juvenile r.age then
    bindIncr (sheet6Blk st (rn - 14)) "Sheet7" (sent_col_sheet7 sent) (rn - 14)
  else st

/-- One row of the convicted loop of `fill_all_sheets` (lines 211-261):
skip non-convicted rows, then fill Sheet 4 (sentence), Sheet 5 (age band),
the juvenile blocks (Sheet-6 guard plus Sheet 7), and Sheet 9 (statutory
punishment). -/
def convictedStep (st : St) (r : Row) : St :=
  if parse_disposition r.remark = Disp.CONVICTED then
    bindIncr
      (juvBlks
        (bindIncr
          (bindIncr st "Sheet4"
            (sent_col_sheet4 (parse_sentence r.sentence) (isMaleOf r.gender))
            (classify_crime_sheet1 r.charge r.victim))
          "Sheet5" (get_age_col_sheet5 r.age r.gender)
          (classify_crime_sheet1 r.charge r.victim - 11))
        r (classify_crime_sheet1 r.charge r.victim) (parse_sentence r.sentence))
      "Sheet9" (sent_col_sheet9 (parse_sentence r.sentence) (isMaleOf r.gender))
      (classify_statutory_sheet8 r.charge)
  else st

/-- `fill_all_sheets(template, df, mode)` as a state transformer,
returning the final workbook together with the final `ws` binding: the
Sheet-1 and Sheet-3 blocks (column D in New mode, J in Disposed mode),
the Sheet-8 statutory loop, and — in Disposed mode — the Sheet-2
disposal loop followed by the convicted loop. -/
def fillSt (wb0 : Workbook) (df : List Row) (mode : Mode) : St :=
  match mode with
  | .New =>
    fillSheet8
      (fillSheet13
        (fillSheet13 { wb := wb0, ws := none } "Sheet1" "D"
          (collectRows df 0 []).1)
        "Sheet3" "D" (collectRows df 0 []).2)
      df .New
  | .Disposed =>
    df.foldl convictedStep
      (fillSheet2
        (fillSheet8
          (fillSheet13
            (fillSheet13 { wb := wb0, ws := none } "Sheet1" "J"
              (collectRows df 0 []).1)
            "Sheet3" "J" (collectRows df 0 []).2)
          df .Disposed)
        df)

/-- `fill_all_sheets` proper: the returned workbook. -/
def fillAllSheets (wb0 : Workbook) (df : List Row) (mode : Mode) : Workbook :=
  (fillSt wb0 df mode).wb

/-- The reporting period selected in the sidebar. -/
structure Period where
  month : Nat
  year : Int
  fullYear : Bool

/-- The date relevant to the selected mode: arraignment for New,
disposal for Disposed. -/
def relevantDate (mode : Mode) (r : Row) : Option (Nat × Int) :=
  match mode with
  | .New => r.dateArr
  | .Disposed => r.dateDisp

/-- The period mask of the main handler: a parsed (month, year) matching
the period; `pd.to_datetime(..., errors='coerce')` turns unparseable
dates into `NaT` (`none` here), which never matches. -/
def dateMatch (p : Period) (d : Option (Nat × Int)) : Bool :=
  match d with
  | none => false
  | some (m, y) =>
    if p.fullYear then y = p.year else m = p.month ∧ y = p.year

/-- `df_filtered = df[mask]`: the qualifying rows of the run. -/
def filterRows (df : List Row) (p : Period) (mode : Mode) : List Row :=
  df.filter (fun r => dateMatch p (relevantDate mode r))

/-- The whole run of the process button: filter to the period, then fill
the template. -/
def processRun (wb : Workbook) (df : List Row) (p : Period) (mode : Mode) :
    Workbook :=
  fillAllSheets wb (filterRows df p mode) mode

/-- `st.dataframe(df_filtered.head(50))`: the only per-row listing the
run emits is a preview of the first 50 qualifying rows. -/
def previewRows (df : List Row) (p : Period) (mode : Mode) : List Row :=
  (filterRows df p mode).take 50

/-! ### Substring lemmas: padding with a foreign character is invisible -/

lemma isPrefOf_cons_ne {a b : Char} (h : a ≠ b) (as bs : Str) :
    isPrefOf (a :: as) (b :: bs) = false := by
  simp [isPrefOf, h]

lemma hasSub_cons_ne {a b : Char} (h : a ≠ b) (as bs : Str) :
    hasSub (a :: as) (b :: bs) = hasSub (a :: as) bs := by
  simp [hasSub, isPrefOf_cons_ne h]

/-- Leading copies of a character that the needle does not start with do
not affect the substring test. -/
lemma hasSub_replicate_append (b : Char) (n : Str) (hne : n ≠ [])
    (hh : n.head? ≠ some b) (m : Nat) (s : Str) :
    hasSub n (List.replicate m b ++ s) = hasSub n s := by
  obtain ⟨a, as, rfl⟩ : ∃ a as, n = a :: as := by
    cases n with
    | nil => exact absurd rfl hne
    | cons a as => exact ⟨a, as, rfl⟩
  have hab : a ≠ b := by
    simpa using hh
  induction m with
  | zero => rfl
  | succ m ih =>
    rw [List.replicate_succ, List.cons_append, hasSub_cons_ne hab, ih]

lemma isPrefOf_append_ne (b : Char) :
    ∀ n s : Str, n.getLast? ≠ some b →
      isPrefOf n (s ++ [b]) = isPrefOf n s := by
  intro n
  induction n with
  | nil => intro s _; rfl
  | cons a as ih =>
    intro s hl
    cases s with
    | nil =>
      cases as with
      | nil =>
        have hab : a ≠ b := by simpa using hl
        simp [isPrefOf, hab]
      | cons a2 as2 =>
        simp [isPrefOf]
    | cons c s2 =>
      cases as with
      | nil => rfl
      | cons a2 as2 =>
        have hl2 : (a2 :: as2).getLast? ≠ some b := by
          rwa [List.getLast?_cons_cons] at hl
        show (a == c && isPrefOf (a2 :: as2) (s2 ++ [b])) =
          (a == c && isPrefOf (a2 :: as2) s2)
        rw [ih s2 hl2]

/-- A trailing copy of a character that the needle does not end with does
not affect the substring test. -/
lemma hasSub_append_ne (b : Char) (n : Str) (hne : n ≠ [])
    (hl : n.getLast? ≠ some b) (t : Str) :
    hasSub n (t ++ [b]) = hasSub n t := by
  induction t with
  | nil =>
    obtain ⟨a, as, rfl⟩ : ∃ a as, n = a :: as := by
      cases n with
      | nil => exact absurd rfl hne
      | cons a as => exact ⟨a, as, rfl⟩
    have h1 : isPrefOf (a :: as) ([] ++ [b]) = isPrefOf (a :: as) [] :=
      isPrefOf_append_ne b (a :: as) [] hl
    simp only [List.nil_append] at h1
    show (isPrefOf (a :: as) [b] || hasSub (a :: as) []) = hasSub (a :: as) []
    rw [h1]
    rfl
  | cons c t2 ih =>
    show hasSub n (c :: (t2 ++ [b])) = hasSub n (c :: t2)
    rw [hasSub, hasSub, ih,
      show c :: (t2 ++ [b]) = (c :: t2) ++ [b] from rfl,
      isPrefOf_append_ne b n (c :: t2) hl]

/-- Trailing copies of a character that the needle does not end with do
not affect the substring test. -/
lemma hasSub_append_replicate (b : Char) (n : Str) (hne : n ≠ [])
    (hl : n.getLast? ≠ some b) (k : Nat) :
    ∀ s : Str, hasSub n (s ++ List.replicate k b) = hasSub n s := by
  induction k with
  | zero => intro s; simp
  | succ k ih =>
    intro s
    rw [List.replicate_succ, show s ++ (b :: List.replicate k b) =
      (s ++ [b]) ++ List.replicate k b by simp, ih, hasSub_append_ne b n hne hl]

/-- Padding a haystack with spaces on either side is invisible to the
substring test, for a needle that neither starts nor ends with a space. -/
lemma hasSub_pad (n : Str) (hne : n ≠ []) (hh : n.head? ≠ some ' ')
    (hl : n.getLast? ≠ some ' ') (m k : Nat) (s : Str) :
    hasSub n (List.replicate m ' ' ++ s ++ List.replicate k ' ') = hasSub n s := by
  rw [hasSub_append_replicate ' ' n hne hl, hasSub_replicate_append ' ' n hne hh]

lemma toUpper_space : Char.toUpper ' ' = ' ' := by decide

lemma up_pad (m k : Nat) (s : Str) :
    up (List.replicate m ' ' ++ s ++ List.replicate k ' ') =
      List.replicate m ' ' ++ up s ++ List.replicate k ' ' := by
  simp [up, List.map_replicate, toUpper_space]

/-- Space padding of the upper-cased charge is invisible to every charge
keyword of the cascade. -/
lemma classifyUp_padC (m k : Nat) (c v : Str) :
    classifyUp (List.replicate m ' ' ++ c ++ List.replicate k ' ') v =
      classifyUp c v := by
  unfold classifyUp
  rw [hasSub_pad "ESCAPE".toList (by decide) (by decide) (by decide),
    hasSub_pad "PERJURY".toList (by decide) (by decide) (by decide),
    hasSub_pad "DISORDERLY".toList (by decide) (by decide) (by decide),
    hasSub_pad "ABUSIVE".toList (by decide) (by decide) (by decide),
    hasSub_pad "THREAT".toList (by decide) (by decide) (by decide),
    hasSub_pad "RAPE".toList (by decide) (by decide) (by decide),
    hasSub_pad "SEXUAL ASSAULT".toList (by decide) (by decide) (by decide),
    hasSub_pad "UNLAWFUL SEXUAL".toList (by decide) (by decide) (by decide),
    hasSub_pad "UNNATURAL".toList (by decide) (by decide) (by decide),
    hasSub_pad "ATTEMPT".toList (by decide) (by decide) (by decide),
    hasSub_pad "MURDER".toList (by decide) (by decide) (by decide),
    hasSub_pad "MANSLAUGHTER".toList (by decide) (by decide) (by decide),
    hasSub_pad "GRIEVOUS".toList (by decide) (by decide) (by decide),
    hasSub_pad "WOUNDING".toList (by decide) (by decide) (by decide),
    hasSub_pad "HARM".toList (by decide) (by decide) (by decide),
    hasSub_pad "AGGRAVATED ASSAULT".toList (by decide) (by decide) (by decide),
    hasSub_pad "COMMON ASSAULT".toList (by decide) (by decide) (by decide),
    hasSub_pad "ROBBERY".toList (by decide) (by decide) (by decide),
    hasSub_pad "BURGLARY".toList (by decide) (by decide) (by decide),
    hasSub_pad "THEFT".toList (by decide) (by decide) (by decide),
    hasSub_pad "DECEPTION".toList (by decide) (by decide) (by decide),
    hasSub_pad "FRAUD".toList (by decide) (by decide) (by decide),
    hasSub_pad "HANDLING".toList (by decide) (by decide) (by decide),
    hasSub_pad "DAMAGE".toList (by decide) (by decide) (by decide),
    hasSub_pad "ARSON".toList (by decide) (by decide) (by decide),
    hasSub_pad "FORGERY".toList (by decide) (by decide) (by decide),
    hasSub_pad "DRUG".toList (by decide) (by decide) (by decide),
    hasSub_pad "CANNABIS".toList (by decide) (by decide) (by decide),
    hasSub_pad "PIPE".toList (by decide) (by decide) (by decide),
    hasSub_pad "VEHICLE".toList (by decide) (by decide) (by decide),
    hasSub_pad "TRAFFIC".toList (by decide) (by decide) (by decide),
    hasSub_pad "MOTOR".toList (by decide) (by decide) (by decide),
    hasSub_pad "LICENSE".toList (by decide) (by decide) (by decide),
    hasSub_pad "FIREARM".toList (by decide) (by decide) (by decide),
    hasSub_pad "AMMUNITION".toList (by decide) (by decide) (by decide)]

/-- Leading space padding of the upper-cased complainant is invisible to
the police condition (no victim keyword starts with a space). -/
lemma policeCond_padL (m : Nat) (v : Str) :
    policeCond (List.replicate m ' ' ++ v) = policeCond v := by
  unfold policeCond
  rw [hasSub_replicate_append ' ' "POLICE".toList (by decide) (by decide),
    hasSub_replicate_append ' ' "PC ".toList (by decide) (by decide),
    hasSub_replicate_append ' ' "CPL ".toList (by decide) (by decide),
    hasSub_replicate_append ' ' "GOB".toList (by decide) (by decide),
    hasSub_replicate_append ' ' "MINOR".toList (by decide) (by decide)]

lemma classifyUp_padV (m : Nat) (c v : Str) :
    classifyUp c (List.replicate m ' ' ++ v) = classifyUp c v := by
  unfold classifyUp
  rw [policeCond_padL]

lemma up_replicate_append (m : Nat) (s : Str) :
    up (List.replicate m ' ' ++ s) = List.replicate m ' ' ++ up s := by
  simp [up, List.map_replicate, toUpper_space]

/-! ### C1: police-complainant override -/

/-- C1: whenever the upper-cased complainant contains one of the police
keywords `POLICE`, `PC `, `CPL `, `GOB` and does not contain `MINOR`,
`classify_crime_sheet1` returns row 25 (AGAINST LAWFUL AUTHORITY)
regardless of the charge text — in particular never the THEFT row 45. -/
theorem police_override_classifies_row25 (charge victim : Str)
    (hk : hasSub "POLICE".toList (up victim) = true ∨
      hasSub "PC ".toList (up victim) = true ∨
      hasSub "CPL ".toList (up victim) = true ∨
      hasSub "GOB".toList (up victim) = true)
    (hm : hasSub "MINOR".toList (up victim) = false) :
    classify_crime_sheet1 charge victim = 25 ∧
      classify_crime_sheet1 charge victim ≠ 45 := by
  have hp : policeCond (up victim) = true := by
    unfold policeCond
    rcases hk with h | h | h | h <;> simp_all
  constructor
  · unfold classify_crime_sheet1 classifyUp
    simp [hp]
  · unfold classify_crime_sheet1 classifyUp
    simp [hp]

/-- C1 witness: complainant `"PC JONES"` with charge `"THEFT"` yields row
25, not the THEFT row 45. -/
theorem police_override_classifies_row25_witness :
    classify_crime_sheet1 "THEFT".toList "PC JONES".toList = 25 ∧
      classify_crime_sheet1 "THEFT".toList "PC JONES".toList ≠ 45 :=
  police_override_classifies_row25 "THEFT".toList "PC JONES".toList
    (Or.inr (Or.inl (by decide))) (by decide)

/-! ### C4: case and whitespace invariance -/

/-- C4 counterexample: classification is NOT invariant under trailing
whitespace in the complainant — adding one trailing space to
complainant `"PC"` (charge `"THEFT"`) flips the result from the THEFT
row 45 to the police row 25, because the police keyword `"PC "` ends in a
space. -/
theorem classify_not_whitespace_invariant :
    classify_crime_sheet1 "THEFT".toList "PC".toList = 45 ∧
      classify_crime_sheet1 "THEFT".toList ("PC".toList ++ [' ']) = 25 ∧
      (45 : Nat) ≠ 25 := by
  refine ⟨by decide, by decide, by decide⟩

/-- C4 amended: classification is invariant under case changes of either
input, under leading/trailing space padding of the charge, and under
leading space padding of the complainant; trailing whitespace on the
complainant is NOT invisible (see the counterexample). -/
theorem classify_case_and_charge_whitespace_invariant :
    (∀ c c' v v' : Str, up c = up c' → up v = up v' →
      classify_crime_sheet1 c v = classify_crime_sheet1 c' v') ∧
    (∀ (m k : Nat) (c v : Str),
      classify_crime_sheet1 (List.replicate m ' ' ++ c ++ List.replicate k ' ') v =
        classify_crime_sheet1 c v) ∧
    (∀ (m : Nat) (c v : Str),
      classify_crime_sheet1 c (List.replicate m ' ' ++ v) =
        classify_crime_sheet1 c v) := by
  refine ⟨fun c c' v v' hc hv => ?_, fun m k c v => ?_, fun m c v => ?_⟩
  · unfold classify_crime_sheet1
    rw [hc, hv]
  · unfold classify_crime_sheet1
    rw [up_pad, classifyUp_padC]
  · unfold classify_crime_sheet1
    rw [up_replicate_append, classifyUp_padV]

/-- C4 witness: lower-casing both inputs and padding the charge with
spaces leaves concrete classifications unchanged. -/
theorem classify_case_and_charge_whitespace_invariant_witness :
    classify_crime_sheet1 "theft".toList "pc jones".toList =
      classify_crime_sheet1 "THEFT".toList "PC JONES".toList ∧
    classify_crime_sheet1
        (List.replicate 2 ' ' ++ "THEFT".toList ++ List.replicate 1 ' ') [] =
      classify_crime_sheet1 "THEFT".toList [] :=
  ⟨classify_case_and_charge_whitespace_invariant.1 _ _ _ _ (by decide) (by decide),
   classify_case_and_charge_whitespace_invariant.2.1 2 1 "THEFT".toList []⟩

/-! ### C9: totality and default fallback of the classifier -/

/-- The Sheet-1 row numbers the cascade can produce. -/
def validRows : List Nat :=
  [22, 23, 24, 25, 27, 28, 29, 30, 33, 34, 35, 36, 37, 38, 39, 40,
   43, 44, 45, 46, 47, 48, 49, 52, 54, 57, 58, 59]

/-- Some charge keyword of the cascade occurs in the (upper-cased)
charge text. -/
def chargeRuleMatches (c : Str) : Bool :=
  hasSub "ESCAPE".toList c || hasSub "PERJURY".toList c ||
  hasSub "DISORDERLY".toList c || hasSub "ABUSIVE".toList c ||
  hasSub "THREAT".toList c || hasSub "RAPE".toList c ||
  hasSub "SEXUAL ASSAULT".toList c || hasSub "UNLAWFUL SEXUAL".toList c ||
  hasSub "UNNATURAL".toList c || hasSub "ATTEMPT".toList c ||
  hasSub "MURDER".toList c || hasSub "MANSLAUGHTER".toList c ||
  hasSub "GRIEVOUS".toList c || hasSub "WOUNDING".toList c ||
  hasSub "HARM".toList c || hasSub "AGGRAVATED ASSAULT".toList c ||
  hasSub "COMMON ASSAULT".toList c || hasSub "ROBBERY".toList c ||
  hasSub "BURGLARY".toList c || hasSub "THEFT".toList c ||
  hasSub "DECEPTION".toList c || hasSub "FRAUD".toList c ||
  hasSub "HANDLING".toList c || hasSub "DAMAGE".toList c ||
  hasSub "ARSON".toList c || hasSub "FORGERY".toList c ||
  hasSub "DRUG".toList c || hasSub "CANNABIS".toList c ||
  hasSub "PIPE".toList c || hasSub "VEHICLE".toList c ||
  hasSub "TRAFFIC".toList c || hasSub "MOTOR".toList c ||
  hasSub "LICENSE".toList c || hasSub "FIREARM".toList c ||
  hasSub "AMMUNITION".toList c

/-- Membership in the row set is preserved by branching. -/
lemma ite_mem_validRows (p : Prop) [Decidable p] (x y : Nat)
    (hx : x ∈ validRows) (hy : y ∈ validRows) :
    (if p then x else y) ∈ validRows := by
  by_cases h : p <;> simp [h, hx, hy]

set_option maxHeartbeats 1000000 in
/-- C9: the classifier is total — every charge/complainant pair, empty
text included, produces exactly one row number (it is a total function),
always drawn from the fixed row set — and whenever neither the police
condition nor any charge keyword matches, the result is the catch-all
row 59 (OTHERS). -/
theorem classifier_total_with_default :
    (∀ c v : Str, classify_crime_sheet1 c v ∈ validRows) ∧
    (∀ c v : Str, policeCond (up v) = false → chargeRuleMatches (up c) = false →
      classify_crime_sheet1 c v = 59) := by
  constructor
  · intro c v
    unfold classify_crime_sheet1 classifyUp
    repeat' apply ite_mem_validRows
    all_goals decide
  · intro c v h1 h2
    simp only [chargeRuleMatches, Bool.or_eq_false_iff, and_assoc] at h2
    obtain ⟨e01, e02, e03, e04, e05, e06, e07, e08, e09, e10, e11, e12, e13,
      e14, e15, e16, e17, e18, e19, e20, e21, e22, e23, e24, e25, e26, e27,
      e28, e29, e30, e31, e32, e33, e34, e35⟩ := h2
    unfold classify_crime_sheet1 classifyUp
    simp only [h1, e01, e02, e03, e04, e05, e06, e07, e08, e09, e10, e11,
      e12, e13, e14, e15, e16, e17, e18, e19, e20, e21, e22, e23, e24, e25,
      e26, e27, e28, e29, e30, e31, e32, e33, e34, e35, Bool.or_self,
      Bool.or_false, Bool.false_or, Bool.and_false, Bool.false_and,
      Bool.false_eq_true, if_false]

/-- C9 witness: the unmatched charge `"JAYWALKING"` (empty complainant)
classifies to the catch-all row 59, inside the fixed row set. -/
theorem classifier_total_with_default_witness :
    classify_crime_sheet1 "JAYWALKING".toList [] ∈ validRows ∧
      classify_crime_sheet1 "JAYWALKING".toList [] = 59 :=
  ⟨classifier_total_with_default.1 "JAYWALKING".toList [],
   classifier_total_with_default.2 "JAYWALKING".toList [] (by decide) (by decide)⟩

/-! ### Workbook cell and frame lemmas -/

lemma cells_setCell_self (wb : Workbook) (s c : String) (r : Nat) (v : CellVal) :
    (wb.setCell s c r v).cells s c r = v := by
  simp [Workbook.setCell]

lemma cells_setCell_ne (wb : Workbook) (s c : String) (r : Nat) (v : CellVal)
    (s₀ c₀ : String) (r₀ : Nat) (h : ¬(s₀ = s ∧ c₀ = c ∧ r₀ = r)) :
    (wb.setCell s c r v).cells s₀ c₀ r₀ = wb.cells s₀ c₀ r₀ := by
  simp only [Workbook.setCell]
  rw [if_neg h]

lemma sheetnames_setCell (wb : Workbook) (s c : String) (r : Nat) (v : CellVal) :
    (wb.setCell s c r v).sheetnames = wb.sheetnames := rfl

/-- Additive semantics of a guarded cell write: an empty cell becomes 1. -/
lemma incrAt_empty (wb : Workbook) (s c : String) (r : Nat)
    (h : wb.cells s c r = CellVal.empty) :
    incrAt wb s c r = wb.setCell s c r (CellVal.num 1) := by
  unfold incrAt
  rw [h]

/-- Additive semantics: a numeric cell `n` becomes `n + 1`. -/
lemma incrAt_num (wb : Workbook) (s c : String) (r : Nat) (n : Int)
    (h : wb.cells s c r = CellVal.num n) :
    incrAt wb s c r = wb.setCell s c r (CellVal.num (n + 1)) := by
  unfold incrAt
  rw [h]

/-- Additive semantics: an empty-string cell (falsy in Python) becomes 1. -/
lemma incrAt_strNil (wb : Workbook) (s c : String) (r : Nat)
    (h : wb.cells s c r = CellVal.str []) :
    incrAt wb s c r = wb.setCell s c r (CellVal.num 1) := by
  unfold incrAt
  rw [h]
  rfl

/-- A non-empty string cell makes Python's `curr + 1` raise; the
swallowed exception leaves the workbook unchanged. -/
lemma incrAt_strSkip (wb : Workbook) (s c : String) (r : Nat) (cs : Str)
    (h : wb.cells s c r = CellVal.str cs) (hne : cs ≠ []) :
    incrAt wb s c r = wb := by
  unfold incrAt
  rw [h]
  simp [hne]

lemma sheetnames_incrAt (wb : Workbook) (s c : String) (r : Nat) :
    (incrAt wb s c r).sheetnames = wb.sheetnames := by
  unfold incrAt
  cases wb.cells s c r with
  | empty => rfl
  | num n => rfl
  | str cs =>
    by_cases h : cs = [] <;> simp [h, sheetnames_setCell]

lemma cells_incrAt_ne (wb : Workbook) (s c : String) (r : Nat)
    (s₀ c₀ : String) (r₀ : Nat) (h : s₀ ≠ s) :
    (incrAt wb s c r).cells s₀ c₀ r₀ = wb.cells s₀ c₀ r₀ := by
  unfold incrAt
  cases wb.cells s c r with
  | empty => exact cells_setCell_ne _ _ _ _ _ _ _ _ (fun hc => h hc.1)
  | num n => exact cells_setCell_ne _ _ _ _ _ _ _ _ (fun hc => h hc.1)
  | str cs =>
    by_cases hcs : cs = []
    · simp only [hcs, if_pos]
      exact cells_setCell_ne _ _ _ _ _ _ _ _ (fun hc => h hc.1)
    · simp [hcs]

lemma sheetnames_incrWs (wb : Workbook) (w : Option String) (c : String)
    (r : Nat) : (incrWs wb w c r).sheetnames = wb.sheetnames := by
  cases w with
  | none => rfl
  | some s => exact sheetnames_incrAt _ _ _ _

lemma cells_incrWs_ne (wb : Workbook) (w : Option String) (c : String)
    (r : Nat) (s₀ c₀ : String) (r₀ : Nat) (h : w ≠ some s₀) :
    (incrWs wb w c r).cells s₀ c₀ r₀ = wb.cells s₀ c₀ r₀ := by
  cases w with
  | none => rfl
  | some s =>
    exact cells_incrAt_ne _ _ _ _ _ _ _ (fun he => h (by rw [he]))

/-- Folding a cell-writing step preserves any cell address the step
never touches. -/
lemma cells_foldl {α : Type} (f : Workbook → α → Workbook)
    (s₀ c₀ : String) (r₀ : Nat)
    (hf : ∀ w x, (f w x).cells s₀ c₀ r₀ = w.cells s₀ c₀ r₀) :
    ∀ (l : List α) (w : Workbook),
      (l.foldl f w).cells s₀ c₀ r₀ = w.cells s₀ c₀ r₀ := by
  intro l
  induction l with
  | nil => intro w; rfl
  | cons x t ih => intro w; rw [List.foldl_cons, ih, hf]

lemma sheetnames_foldl {α : Type} (f : Workbook → α → Workbook)
    (hf : ∀ w x, (f w x).sheetnames = w.sheetnames) :
    ∀ (l : List α) (w : Workbook),
      (l.foldl f w).sheetnames = w.sheetnames := by
  intro l
  induction l with
  | nil => intro w; rfl
  | cons x t ih => intro w; rw [List.foldl_cons, ih, hf]

/-! ### C2: additive (non-idempotent) cell writes -/

/-- A concrete data row: a THEFT charge (row 45), arraigned March 2025. -/
def rowTheft : Row :=
  { caseid := some "CB-1".toList
    charge := "THEFT".toList
    victim := []
    remark := []
    gender := []
    sentence := []
    age := none
    dateArr := some (3, 2025)
    dateDisp := none }

/-- Filling a one-sheet template (only `Sheet1`) with a single row in New
mode performs exactly one guarded increment, at column D of the row's
classification. -/
lemma fill_new_single (wb : Workbook) (h1 : wb.sheetnames = ["Sheet1"])
    (r : Row) :
    fillAllSheets wb [r] Mode.New =
      incrAt wb "Sheet1" "D" (classify_crime_sheet1 r.charge r.victim) := by
  unfold fillAllSheets fillSt
  simp only [collectRows, keyOf]
  unfold fillSheet13 fillSheet8
  simp [h1, sheetnames_incrAt, List.foldl_cons]

/-- C2 counterexample: a target cell holding the non-empty, non-numeric
string `"X"` is NOT treated as 0 — the increment raises and is skipped,
leaving `"X"` in place instead of writing 1. -/
theorem additive_write_skips_nonnumeric :
    (fillAllSheets
        { sheetnames := ["Sheet1"]
          cells := fun s c r =>
            if s = "Sheet1" ∧ c = "D" ∧ r = 45 then CellVal.str ['X']
            else CellVal.empty }
        [rowTheft] Mode.New).cells "Sheet1" "D" 45 = CellVal.str ['X'] ∧
      CellVal.str ['X'] ≠ CellVal.num 1 := by
  constructor
  · rw [fill_new_single _ rfl,
      show classify_crime_sheet1 rowTheft.charge rowTheft.victim = 45 by decide,
      incrAt_strSkip _ _ _ _ ['X'] (by simp) (by simp)]
    simp
  · decide

/-- C2 amended: every guarded report-cell write is additive — an absent
cell and the falsy values `0`-as-number and the empty string read as 0
and become `current + 1`; a non-empty non-numeric string skips the write
(the claim's "non-numeric is treated as 0" holds only for the empty
string).  Aggregation is therefore not idempotent: against a `Sheet1`
template whose target cell D45 holds 5, one qualifying THEFT row yields
6 after one run and 7 after running the same row again. -/
theorem additive_write_and_not_idempotent (wb : Workbook)
    (h1 : wb.sheetnames = ["Sheet1"])
    (h2 : wb.cells "Sheet1" "D" 45 = CellVal.num 5) :
    (∀ (w : Workbook) (s c : String) (r : Nat),
      (w.cells s c r = CellVal.empty →
        incrAt w s c r = w.setCell s c r (CellVal.num 1)) ∧
      (∀ n : Int, w.cells s c r = CellVal.num n →
        incrAt w s c r = w.setCell s c r (CellVal.num (n + 1))) ∧
      (∀ cs : Str, w.cells s c r = CellVal.str cs → cs ≠ [] →
        incrAt w s c r = w)) ∧
    (fillAllSheets wb [rowTheft] Mode.New).cells "Sheet1" "D" 45 =
      CellVal.num 6 ∧
    (fillAllSheets (fillAllSheets wb [rowTheft] Mode.New) [rowTheft]
        Mode.New).cells "Sheet1" "D" 45 = CellVal.num 7 := by
  have hcls : classify_crime_sheet1 rowTheft.charge rowTheft.victim = 45 := by
    decide
  have run1 : fillAllSheets wb [rowTheft] Mode.New =
      incrAt wb "Sheet1" "D" 45 := by
    rw [fill_new_single wb h1, hcls]
  have run1cells : (fillAllSheets wb [rowTheft] Mode.New).cells "Sheet1" "D" 45 =
      CellVal.num 6 := by
    rw [run1, incrAt_num wb _ _ _ 5 h2, cells_setCell_self]
    decide
  refine ⟨fun w s c r =>
    ⟨incrAt_empty w s c r,
     fun n h => incrAt_num w s c r n h,
     fun cs h hne => incrAt_strSkip w s c r cs h hne⟩,
    run1cells, ?_⟩
  have hn1 : (fillAllSheets wb [rowTheft] Mode.New).sheetnames = ["Sheet1"] := by
    rw [run1, sheetnames_incrAt, h1]
  rw [fill_new_single _ hn1, hcls,
    incrAt_num _ _ _ _ 6 run1cells, cells_setCell_self]
  decide

/-- C2 witness: the additive/non-idempotent behavior at a concrete
template whose D45 cell holds 5. -/
theorem additive_write_and_not_idempotent_witness :
    (fillAllSheets
        { sheetnames := ["Sheet1"]
          cells := fun s c r =>
            if s = "Sheet1" ∧ c = "D" ∧ r = 45 then CellVal.num 5
            else CellVal.empty }
        [rowTheft] Mode.New).cells "Sheet1" "D" 45 = CellVal.num 6 ∧
    (fillAllSheets
        (fillAllSheets
          { sheetnames := ["Sheet1"]
            cells := fun s c r =>
              if s = "Sheet1" ∧ c = "D" ∧ r = 45 then CellVal.num 5
              else CellVal.empty }
          [rowTheft] Mode.New)
        [rowTheft] Mode.New).cells "Sheet1" "D" 45 = CellVal.num 7 := by
  have h := additive_write_and_not_idempotent
    { sheetnames := ["Sheet1"]
      cells := fun s c r =>
        if s = "Sheet1" ∧ c = "D" ∧ r = 45 then CellVal.num 5
        else CellVal.empty }
    rfl (by simp)
  exact ⟨h.2.1, h.2.2⟩

/-! ### C7: age banding is a total, non-overlapping partition -/

/-- The five age bands of the report. -/
inductive AgeBand | juvenile | b17to25 | b26to35 | b36to45 | b46plus
deriving DecidableEq, Repr

/-- The spec's age partition, stated with its inclusive boundaries
(`<=16`, `17-25`, `26-35`, `36-45`, `>=46`); by construction every
integer falls in exactly one band.  Used to compare the code's
`get_age_col_sheet5` against the spec's wording. -/
def specAgeBand (a : Int) : AgeBand :=
  if a ≤ 16 then .juvenile
  else if a ≤ 25 then .b17to25
  else if a ≤ 35 then .b26to35
  else if a ≤ 45 then .b36to45
  else .b46plus

/-- Sheet-5 column letter of a band for each sex. -/
def bandCol (b : AgeBand) (male : Bool) : String :=
  match b with
  | .juvenile => if male then "B" else "C"
  | .b17to25 => if male then "D" else "E"
  | .b26to35 => if male then "F" else "G"
  | .b36to45 => if male then "H" else "I"
  | .b46plus => if male then "J" else "K"

/-- C7: age banding is a total, non-overlapping partition with the
spec's inclusive boundaries — for every parseable integer age the code's
`get_age_col_sheet5` returns exactly the column of the unique spec band
(so bands neither overlap nor leave gaps, and the dead final `None`
branch is unreachable), an unparseable age yields the Unknown outcome
`none` instead of raising, and `is_juvenile` agrees with the `<=16`
boundary. -/
theorem age_band_total_partition :
    (∀ g : Str, get_age_col_sheet5 none g = none) ∧
    (∀ (a : Int) (g : Str),
      get_age_col_sheet5 (some a) g = some (bandCol (specAgeBand a) (isMaleOf g))) ∧
    (∀ a : Int, is_juvenile (some a) = decide (a ≤ 16)) ∧
    is_juvenile none = false := by
  refine ⟨fun g => rfl, fun a g => ?_, fun a => rfl, rfl⟩
  by_cases h1 : a ≤ 16
  · simp [get_age_col_sheet5, specAgeBand, h1, bandCol]
  · by_cases h2 : a ≤ 25
    · have h3 : 17 ≤ a := by omega
      simp [get_age_col_sheet5, specAgeBand, h1, h2, h3, bandCol]
    · by_cases h4 : a ≤ 35
      · have h5 : 26 ≤ a := by omega
        simp [get_age_col_sheet5, specAgeBand, h1, h2, h4, h5, bandCol,
          show ¬(17 ≤ a ∧ a ≤ 25) by omega]
      · by_cases h6 : a ≤ 45
        · have h7 : 36 ≤ a := by omega
          simp [get_age_col_sheet5, specAgeBand, h1, h2, h4, h6, h7, bandCol,
            show ¬(17 ≤ a ∧ a ≤ 25) by omega, show ¬(26 ≤ a ∧ a ≤ 35) by omega]
        · have h8 : 46 ≤ a := by omega
          simp [get_age_col_sheet5, specAgeBand, h1, h2, h4, h6, h8, bandCol,
            show ¬(17 ≤ a ∧ a ≤ 25) by omega, show ¬(26 ≤ a ∧ a ≤ 35) by omega,
            show ¬(36 ≤ a ∧ a ≤ 45) by omega]

example : get_age_col_sheet5 (some 16) "M".toList = some "B" := by decide
example : get_age_col_sheet5 (some 17) "M".toList = some "D" := by decide
example : get_age_col_sheet5 (some 45) "F".toList = some "I" := by decide
example : get_age_col_sheet5 (some 46) "M".toList = some "J" := by decide

/-! ### C8: period filtering and unparseable dates -/

/-- C8: the run counts exactly the rows whose relevant date (arraignment
in New mode, disposal in Disposed mode) matches the period — same
month and year, or same year in full-year mode — and rows whose relevant
date failed to parse are excluded from the whole run: deleting them from
the input changes nothing (and the pipeline is a total function, so such
rows never abort the run). -/
theorem period_filter_excludes_unparseable :
    (∀ (wb : Workbook) (df : List Row) (p : Period) (mode : Mode),
      processRun wb df p mode =
        processRun wb (df.filter (fun r => (relevantDate mode r).isSome)) p mode) ∧
    (∀ (df : List Row) (p : Period) (mode : Mode) (r : Row),
      r ∈ filterRows df p mode ↔
        r ∈ df ∧ dateMatch p (relevantDate mode r) = true) ∧
    (∀ (p : Period) (m : Nat) (y : Int),
      dateMatch p (some (m, y)) = true ↔
        (if p.fullYear then y = p.year else m = p.month ∧ y = p.year)) ∧
    (∀ p : Period, dateMatch p none = false) := by
  refine ⟨fun wb df p mode => ?_, fun df p mode r => ?_, fun p m y => ?_,
    fun p => rfl⟩
  · unfold processRun
    have hfil : filterRows (df.filter (fun r => (relevantDate mode r).isSome))
        p mode = filterRows df p mode := by
      unfold filterRows
      rw [List.filter_filter]
      apply List.filter_congr
      intro r _
      cases hd : relevantDate mode r with
      | none => simp [dateMatch, hd]
      | some d => simp [hd]
    rw [hfil]
  · unfold filterRows
    rw [List.mem_filter]
  · unfold dateMatch
    by_cases hf : p.fullYear <;> simp [hf]

/-- C8 witness: concrete checks of the filter characterization — a row
arraigned March 2025 qualifies for month 3 of 2025 in New mode, and an
unparseable date never matches. -/
theorem period_filter_excludes_unparseable_witness :
    (dateMatch ⟨3, 2025, false⟩ (some (3, 2025)) = true ↔
      (if (false : Bool) then (2025 : Int) = 2025 else 3 = 3 ∧ (2025 : Int) = 2025)) ∧
    dateMatch ⟨3, 2025, false⟩ none = false :=
  ⟨period_filter_excludes_unparseable.2.2.1 ⟨3, 2025, false⟩ 3 2025,
   period_filter_excludes_unparseable.2.2.2 ⟨3, 2025, false⟩⟩

/-! ### C6: no audit list — only a 50-row preview -/

/-- A minimal qualifying row: arraigned March 2025. -/
def rowMarch : Row :=
  { caseid := none
    charge := []
    victim := []
    remark := []
    gender := []
    sentence := []
    age := none
    dateArr := some (3, 2025)
    dateDisp := none }

/-- C6 counterexample: the run produces no per-qualifying-row audit
sequence — its only row listing is the preview of `df_filtered.head(50)`,
so with 51 qualifying rows the listing has 50 entries, not one per
qualifying row. -/
theorem no_audit_entry_per_qualifying_row :
    (previewRows (List.replicate 51 rowMarch) ⟨3, 2025, false⟩ Mode.New).length = 50 ∧
    (filterRows (List.replicate 51 rowMarch) ⟨3, 2025, false⟩ Mode.New).length = 51 := by
  have hfil : filterRows (List.replicate 51 rowMarch) ⟨3, 2025, false⟩ Mode.New =
      List.replicate 51 rowMarch := by
    unfold filterRows
    rw [List.filter_eq_self]
    intro a ha
    rw [List.eq_of_mem_replicate ha]
    decide
  constructor
  · unfold previewRows
    rw [hfil, List.length_take, List.length_replicate]
    decide
  · rw [hfil, List.length_replicate]

/-- C6 amended: `fill_all_sheets` returns only the mutated workbook; the
run emits no audit list.  The only per-row listing shown is a preview of
the qualifying rows truncated to the first 50: it is a prefix of the
qualifying rows of length `min 50 (number of qualifying rows)`. -/
theorem preview_is_truncated_qualifying_rows
    (df : List Row) (p : Period) (mode : Mode) :
    (previewRows df p mode).length = min 50 (filterRows df p mode).length ∧
      previewRows df p mode <+: filterRows df p mode := by
  constructor
  · unfold previewRows
    rw [List.length_take]
  · unfold previewRows
    exact List.take_prefix 50 _

/-- C6 witness: with two qualifying rows the preview is those two rows. -/
theorem preview_is_truncated_qualifying_rows_witness :
    (previewRows (List.replicate 2 rowMarch) ⟨3, 2025, false⟩ Mode.New).length =
      min 50 (filterRows (List.replicate 2 rowMarch) ⟨3, 2025, false⟩ Mode.New).length ∧
    previewRows (List.replicate 2 rowMarch) ⟨3, 2025, false⟩ Mode.New <+:
      filterRows (List.replicate 2 rowMarch) ⟨3, 2025, false⟩ Mode.New :=
  preview_is_truncated_qualifying_rows (List.replicate 2 rowMarch)
    ⟨3, 2025, false⟩ Mode.New

/-! ### C3: case-level dedup vs person-level counting -/

/-- The `seen_cases` set after processing a row list, starting from a
given index and seen-set. -/
def seenAfter : List Row → Nat → List CaseKey → List CaseKey
  | [], _, seen => seen
  | r :: t, idx, seen =>
    seenAfter t (idx + 1) (if keyOf r idx ∈ seen then seen else keyOf r idx :: seen)

lemma mem_seenAfter (k : CaseKey) :
    ∀ (xs : List Row) (idx : Nat) (seen : List CaseKey),
      k ∈ seenAfter xs idx seen ↔ k ∈ keysOf xs idx ∨ k ∈ seen := by
  intro xs
  induction xs with
  | nil =>
    intro idx seen
    simp [seenAfter, keysOf]
  | cons r t ih =>
    intro idx seen
    show k ∈ seenAfter t (idx + 1) _ ↔ _
    rw [ih]
    by_cases h : keyOf r idx ∈ seen
    · simp only [h, if_true, keysOf, List.mem_cons]
      constructor
      · rintro (hA | hB)
        · exact Or.inl (Or.inr hA)
        · exact Or.inr hB
      · rintro ((rfl | hA) | hB)
        · exact Or.inr h
        · exact Or.inl hA
        · exact Or.inr hB
    · simp only [h, if_false, keysOf, List.mem_cons]
      tauto

/-- Processing a concatenation: the collected row lists are the
concatenations of the two halves' lists, with the second half processed
under the seen-set left by the first. -/
lemma collectRows_append :
    ∀ (xs ys : List Row) (idx : Nat) (seen : List CaseKey),
      collectRows (xs ++ ys) idx seen =
        ((collectRows xs idx seen).1 ++
           (collectRows ys (idx + xs.length) (seenAfter xs idx seen)).1,
         (collectRows xs idx seen).2 ++
           (collectRows ys (idx + xs.length) (seenAfter xs idx seen)).2) := by
  intro xs
  induction xs with
  | nil =>
    intro ys idx seen
    simp [collectRows, seenAfter]
  | cons r t ih =>
    intro ys idx seen
    have harith : idx + 1 + t.length = idx + (t.length + 1) := by omega
    show collectRows (r :: (t ++ ys)) idx seen = _
    simp only [collectRows, seenAfter, List.length_cons]
    rw [ih, harith]
    by_cases h : keyOf r idx ∈ seen <;> simp [h]

/-- C3: in a table consisting of already-seen-free prefix `pre` followed
by two rows sharing case id `cid` (with any charges), the case-level list
gains exactly one entry — the classification of the FIRST of the pair —
while the person-level list gains two entries, one per row. -/
theorem dedup_case_once_person_twice (pre : List Row) (r1 r2 : Row)
    (cid : Str) (h1 : r1.caseid = some cid) (h2 : r2.caseid = some cid)
    (hnew : CaseKey.cid cid ∉ keysOf pre 0) :
    collectRows (pre ++ [r1, r2]) 0 [] =
      ((collectRows pre 0 []).1 ++ [classify_crime_sheet1 r1.charge r1.victim],
       (collectRows pre 0 []).2 ++ [classify_crime_sheet1 r1.charge r1.victim,
         classify_crime_sheet1 r2.charge r2.victim]) := by
  rw [collectRows_append]
  have hk1 : keyOf r1 pre.length = CaseKey.cid cid := by
    unfold keyOf
    rw [h1]
  have hk2 : keyOf r2 (pre.length + 1) = CaseKey.cid cid := by
    unfold keyOf
    rw [h2]
  have hnotin : CaseKey.cid cid ∉ seenAfter pre 0 [] := by
    rw [mem_seenAfter]
    simp [hnew]
  simp [collectRows, hk1, hk2, hnotin]

/-- C3 witness: two rows with case id `CB-100`, charges THEFT and MURDER:
the case-level list is `[45]` (first row's classification only), the
person-level list `[45, 33]`. -/
theorem dedup_case_once_person_twice_witness :
    collectRows
      [{ caseid := some "CB-100".toList, charge := "THEFT".toList,
         victim := [], remark := [], gender := [], sentence := [],
         age := none, dateArr := none, dateDisp := none },
       { caseid := some "CB-100".toList, charge := "MURDER".toList,
         victim := [], remark := [], gender := [], sentence := [],
         age := none, dateArr := none, dateDisp := none }] 0 [] =
      ([45], [45, 33]) := by
  have h := dedup_case_once_person_twice []
    { caseid := some "CB-100".toList, charge := "THEFT".toList,
      victim := [], remark := [], gender := [], sentence := [],
      age := none, dateArr := none, dateDisp := none }
    { caseid := some "CB-100".toList, charge := "MURDER".toList,
      victim := [], remark := [], gender := [], sentence := [],
      age := none, dateArr := none, dateDisp := none }
    "CB-100".toList rfl rfl (by simp [keysOf])
  simp only [List.nil_append] at h
  rw [h]
  decide

/-! ### State-level frame lemmas for the fill phases -/

lemma bindIncr_ws (st : St) (name : String) (c : Option String) (row : Nat) :
    (bindIncr st name c row).ws =
      if name ∈ st.wb.sheetnames then some name else st.ws := by
  unfold bindIncr
  split
  · cases c <;> rfl
  · rfl

lemma bindIncr_sheetnames (st : St) (name : String) (c : Option String)
    (row : Nat) :
    (bindIncr st name c row).wb.sheetnames = st.wb.sheetnames := by
  unfold bindIncr
  split
  · cases c with
    | some col => exact sheetnames_incrAt _ _ _ _
    | none => rfl
  · rfl

lemma bindIncr_cells_ne {st : St} {name : String} {c : Option String}
    {row : Nat} {s₀ c₀ : String} {r₀ : Nat} (h : s₀ ≠ name) :
    (bindIncr st name c row).wb.cells s₀ c₀ r₀ = st.wb.cells s₀ c₀ r₀ := by
  unfold bindIncr
  split
  · cases c with
    | some col => exact cells_incrAt_ne _ _ _ _ _ _ _ h
    | none => rfl
  · rfl

lemma bindIncr_ws_ne {st : St} {name : String} {c : Option String}
    {row : Nat} {s₀ : String} (h : s₀ ≠ name) (hws : st.ws ≠ some s₀) :
    (bindIncr st name c row).ws ≠ some s₀ := by
  rw [bindIncr_ws]
  split
  · exact fun he => h (Option.some.inj he).symm
  · exact hws

lemma sheet6Blk_ws (st : St) (row : Nat) : (sheet6Blk st row).ws = st.ws := by
  unfold sheet6Blk
  split <;> rfl

lemma sheet6Blk_sheetnames (st : St) (row : Nat) :
    (sheet6Blk st row).wb.sheetnames = st.wb.sheetnames := by
  unfold sheet6Blk
  split
  · exact sheetnames_incrWs _ _ _ _
  · rfl

lemma sheet6Blk_cells_ne {st : St} {row : Nat} {s₀ c₀ : String} {r₀ : Nat}
    (h : st.ws ≠ some s₀) :
    (sheet6Blk st row).wb.cells s₀ c₀ r₀ = st.wb.cells s₀ c₀ r₀ := by
  unfold sheet6Blk
  split
  · exact cells_incrWs_ne _ _ _ _ _ _ _ h
  · rfl

lemma juvBlks_ws_ne {st : St} {r : Row} {rn : Nat} {sent : Sent} {s₀ : String}
    (h7 : s₀ ≠ "Sheet7") (hws : st.ws ≠ some s₀) :
    (juvBlks st r rn sent).ws ≠ some s₀ := by
  unfold juvBlks
  split
  · refine bindIncr_ws_ne h7 ?_
    rw [sheet6Blk_ws]
    exact hws
  · exact hws

lemma juvBlks_cells_ne {st : St} {r : Row} {rn : Nat} {sent : Sent}
    {s₀ c₀ : String} {r₀ : Nat} (h7 : s₀ ≠ "Sheet7") (hws : st.ws ≠ some s₀) :
    (juvBlks st r rn sent).wb.cells s₀ c₀ r₀ = st.wb.cells s₀ c₀ r₀ := by
  unfold juvBlks
  split
  · rw [bindIncr_cells_ne h7, sheet6Blk_cells_ne hws]
  · rfl

lemma convictedStep_ws_ne {st : St} {r : Row} {s₀ : String}
    (h4 : s₀ ≠ "Sheet4") (h5 : s₀ ≠ "Sheet5") (h7 : s₀ ≠ "Sheet7")
    (h9 : s₀ ≠ "Sheet9") (hws : st.ws ≠ some s₀) :
    (convictedStep st r).ws ≠ some s₀ := by
  unfold convictedStep
  split
  · exact bindIncr_ws_ne h9
      (juvBlks_ws_ne h7 (bindIncr_ws_ne h5 (bindIncr_ws_ne h4 hws)))
  · exact hws

lemma convictedStep_cells_ne {st : St} {r : Row} {s₀ c₀ : String} {r₀ : Nat}
    (h4 : s₀ ≠ "Sheet4") (h5 : s₀ ≠ "Sheet5") (h7 : s₀ ≠ "Sheet7")
    (h9 : s₀ ≠ "Sheet9") (hws : st.ws ≠ some s₀) :
    (convictedStep st r).wb.cells s₀ c₀ r₀ = st.wb.cells s₀ c₀ r₀ := by
  unfold convictedStep
  split
  · rw [bindIncr_cells_ne h9,
      juvBlks_cells_ne h7 (bindIncr_ws_ne h5 (bindIncr_ws_ne h4 hws)),
      bindIncr_cells_ne h5, bindIncr_cells_ne h4]
  · rfl

lemma foldl_convictedStep_cells_ne {s₀ c₀ : String} {r₀ : Nat}
    (h4 : s₀ ≠ "Sheet4") (h5 : s₀ ≠ "Sheet5") (h7 : s₀ ≠ "Sheet7")
    (h9 : s₀ ≠ "Sheet9") :
    ∀ (df : List Row) (st : St), st.ws ≠ some s₀ →
      (df.foldl convictedStep st).wb.cells s₀ c₀ r₀ = st.wb.cells s₀ c₀ r₀ := by
  intro df
  induction df with
  | nil => intro st _; rfl
  | cons r t ih =>
    intro st hws
    rw [List.foldl_cons, ih _ (convictedStep_ws_ne h4 h5 h7 h9 hws),
      convictedStep_cells_ne h4 h5 h7 h9 hws]

lemma fillSheet13_ws (st : St) (name col : String) (rows : List Nat) :
    (fillSheet13 st name col rows).ws =
      if name ∈ st.wb.sheetnames then some name else st.ws := by
  unfold fillSheet13
  split <;> rfl

lemma fillSheet13_ws_ne {st : St} {name col : String} {rows : List Nat}
    {s₀ : String} (h : s₀ ≠ name) (hws : st.ws ≠ some s₀) :
    (fillSheet13 st name col rows).ws ≠ some s₀ := by
  rw [fillSheet13_ws]
  split
  · exact fun he => h (Option.some.inj he).symm
  · exact hws

lemma fillSheet13_sheetnames (st : St) (name col : String) (rows : List Nat) :
    (fillSheet13 st name col rows).wb.sheetnames = st.wb.sheetnames := by
  unfold fillSheet13
  split
  · exact sheetnames_foldl _ (fun w x => sheetnames_incrAt w name col x) rows st.wb
  · rfl

lemma fillSheet13_cells_ne {st : St} {name col : String} {rows : List Nat}
    {s₀ c₀ : String} {r₀ : Nat} (h : s₀ ≠ name) :
    (fillSheet13 st name col rows).wb.cells s₀ c₀ r₀ = st.wb.cells s₀ c₀ r₀ := by
  unfold fillSheet13
  split
  · exact cells_foldl _ s₀ c₀ r₀
      (fun w x => cells_incrAt_ne w name col x s₀ c₀ r₀ h) rows st.wb
  · rfl

lemma sheet8Step_cells_ne {mode : Mode} {w : Workbook} {r : Row}
    {s₀ c₀ : String} {r₀ : Nat} (h : s₀ ≠ "Sheet8") :
    (sheet8Step mode w r).cells s₀ c₀ r₀ = w.cells s₀ c₀ r₀ := by
  unfold sheet8Step
  cases mode with
  | New => exact cells_incrAt_ne _ _ _ _ _ _ _ h
  | Disposed =>
    cases parse_disposition r.remark with
    | CONVICTED => exact cells_incrAt_ne _ _ _ _ _ _ _ h
    | DISMISSED => exact cells_incrAt_ne _ _ _ _ _ _ _ h
    | NOLLE => rfl
    | OTHER => rfl

lemma sheet8Step_sheetnames (mode : Mode) (w : Workbook) (r : Row) :
    (sheet8Step mode w r).sheetnames = w.sheetnames := by
  unfold sheet8Step
  cases mode with
  | New => exact sheetnames_incrAt _ _ _ _
  | Disposed =>
    cases parse_disposition r.remark with
    | CONVICTED => exact sheetnames_incrAt _ _ _ _
    | DISMISSED => exact sheetnames_incrAt _ _ _ _
    | NOLLE => rfl
    | OTHER => rfl

lemma fillSheet8_ws_ne {st : St} {df : List Row} {mode : Mode} {s₀ : String}
    (h : s₀ ≠ "Sheet8") (hws : st.ws ≠ some s₀) :
    (fillSheet8 st df mode).ws ≠ some s₀ := by
  unfold fillSheet8
  split
  · exact fun he => h (Option.some.inj he).symm
  · exact hws

lemma fillSheet8_sheetnames (st : St) (df : List Row) (mode : Mode) :
    (fillSheet8 st df mode).wb.sheetnames = st.wb.sheetnames := by
  unfold fillSheet8
  split
  · exact sheetnames_foldl _ (sheet8Step_sheetnames mode) df st.wb
  · rfl

lemma fillSheet8_cells_ne {st : St} {df : List Row} {mode : Mode}
    {s₀ c₀ : String} {r₀ : Nat} (h : s₀ ≠ "Sheet8") :
    (fillSheet8 st df mode).wb.cells s₀ c₀ r₀ = st.wb.cells s₀ c₀ r₀ := by
  unfold fillSheet8
  split
  · exact cells_foldl _ s₀ c₀ r₀ (fun w x => sheet8Step_cells_ne h) df st.wb
  · rfl

lemma sheet2Step_cells_ne {w : Workbook} {r : Row} {s₀ c₀ : String} {r₀ : Nat}
    (h : s₀ ≠ "Sheet2") :
    (sheet2Step w r).cells s₀ c₀ r₀ = w.cells s₀ c₀ r₀ := by
  unfold sheet2Step
  cases parse_disposition r.remark with
  | CONVICTED => exact cells_incrAt_ne _ _ _ _ _ _ _ h
  | DISMISSED => exact cells_incrAt_ne _ _ _ _ _ _ _ h
  | NOLLE => exact cells_incrAt_ne _ _ _ _ _ _ _ h
  | OTHER => rfl

lemma sheet2Step_sheetnames (w : Workbook) (r : Row) :
    (sheet2Step w r).sheetnames = w.sheetnames := by
  unfold sheet2Step
  cases parse_disposition r.remark with
  | CONVICTED => exact sheetnames_incrAt _ _ _ _
  | DISMISSED => exact sheetnames_incrAt _ _ _ _
  | NOLLE => exact sheetnames_incrAt _ _ _ _
  | OTHER => rfl

lemma fillSheet2_ws_ne {st : St} {df : List Row} {s₀ : String}
    (h : s₀ ≠ "Sheet2") (hws : st.ws ≠ some s₀) :
    (fillSheet2 st df).ws ≠ some s₀ := by
  unfold fillSheet2
  split
  · exact fun he => h (Option.some.inj he).symm
  · exact hws

lemma fillSheet2_sheetnames (st : St) (df : List Row) :
    (fillSheet2 st df).wb.sheetnames = st.wb.sheetnames := by
  unfold fillSheet2
  split
  · exact sheetnames_foldl _ sheet2Step_sheetnames df st.wb
  · rfl

lemma fillSheet2_cells_ne {st : St} {df : List Row} {s₀ c₀ : String} {r₀ : Nat}
    (h : s₀ ≠ "Sheet2") :
    (fillSheet2 st df).wb.cells s₀ c₀ r₀ = st.wb.cells s₀ c₀ r₀ := by
  unfold fillSheet2
  split
  · exact cells_foldl _ s₀ c₀ r₀ (fun w x => sheet2Step_cells_ne h) df st.wb
  · rfl

/-! ### C10: the Sheet-6 guard writes through a stale worksheet binding -/

/-- C10: (1) no run of `fill_all_sheets` ever writes to the workbook's
`Sheet6` worksheet — every `Sheet6` cell is unchanged in every mode, even
when the sheet exists; (2) the juvenile-offense write guarded by the
`'Sheet6' in wb.sheetnames` check goes to column F of whichever worksheet
the loop variable `ws` currently holds, at the row passed to it
(`r_num - 14` in the convicted loop); (3) at the point of that write,
when `Sheet5` exists in the template, `ws` is bound to `Sheet5` (the
binding made by the Sheet-5 age block just before). -/
theorem sheet6_guard_writes_stale_worksheet :
    (∀ (wb : Workbook) (df : List Row) (mode : Mode) (c₀ : String) (r₀ : Nat),
      (fillAllSheets wb df mode).cells "Sheet6" c₀ r₀ = wb.cells "Sheet6" c₀ r₀) ∧
    (∀ (st : St) (row : Nat) (t : String), st.ws = some t →
      "Sheet6" ∈ st.wb.sheetnames →
      sheet6Blk st row = { st with wb := incrAt st.wb t "F" row }) ∧
    (∀ (st : St) (c1 : Option String) (n1 : Nat) (c2 : Option String) (n2 : Nat),
      "Sheet5" ∈ st.wb.sheetnames →
      (bindIncr (bindIncr st "Sheet4" c1 n1) "Sheet5" c2 n2).ws = some "Sheet5") := by
  refine ⟨fun wb df mode c₀ r₀ => ?_, fun st row t hws hmem => ?_,
    fun st c1 n1 c2 n2 hmem => ?_⟩
  · unfold fillAllSheets fillSt
    cases mode with
    | New =>
      rw [fillSheet8_cells_ne (by decide), fillSheet13_cells_ne (by decide),
        fillSheet13_cells_ne (by decide)]
    | Disposed =>
      rw [foldl_convictedStep_cells_ne (by decide) (by decide) (by decide)
          (by decide) df _
          (fillSheet2_ws_ne (by decide)
            (fillSheet8_ws_ne (by decide)
              (fillSheet13_ws_ne (by decide)
                (fillSheet13_ws_ne (by decide) (by simp))))),
        fillSheet2_cells_ne (by decide), fillSheet8_cells_ne (by decide),
        fillSheet13_cells_ne (by decide), fillSheet13_cells_ne (by decide)]
  · unfold sheet6Blk
    rw [if_pos hmem, hws]
    rfl
  · rw [bindIncr_ws, if_pos]
    rw [bindIncr_sheetnames]
    exact hmem

/-- C10 witness: on a template holding sheets 5 and 6, a convicted
juvenile THEFT row (row 45) leaves every `Sheet6` cell untouched, the
guarded write lands on `Sheet5` at `F31` (45 - 14), and the `ws` binding
at the juvenile block is `Sheet5`. -/
theorem sheet6_guard_writes_stale_worksheet_witness :
    (fillAllSheets
        { sheetnames := ["Sheet5", "Sheet6"], cells := fun _ _ _ => CellVal.empty }
        [{ caseid := none, charge := "THEFT".toList, victim := [],
           remark := "CONVICTED".toList, gender := "M".toList, sentence := [],
           age := some 15, dateArr := none, dateDisp := some (3, 2025) }]
        Mode.Disposed).cells "Sheet6" "F" 31 = CellVal.empty ∧
    sheet6Blk
        { wb := { sheetnames := ["Sheet5", "Sheet6"],
                  cells := fun _ _ _ => CellVal.empty },
          ws := some "Sheet5" } 31 =
      { wb := incrAt { sheetnames := ["Sheet5", "Sheet6"],
                       cells := fun _ _ _ => CellVal.empty } "Sheet5" "F" 31,
        ws := some "Sheet5" } ∧
    (bindIncr
        (bindIncr
          { wb := { sheetnames := ["Sheet5", "Sheet6"],
                    cells := fun _ _ _ => CellVal.empty },
            ws := none } "Sheet4" none 45)
        "Sheet5" (some "B") 34).ws = some "Sheet5" :=
  ⟨sheet6_guard_writes_stale_worksheet.1 _ _ Mode.Disposed "F" 31,
   sheet6_guard_writes_stale_worksheet.2.1 _ 31 "Sheet5" rfl (by decide),
   sheet6_guard_writes_stale_worksheet.2.2 _ none 45 (some "B") 34 (by decide)⟩

/-! ### C5: which rows feed the demographic and statutory breakdowns -/

/-- A non-convicted row is a no-op of the convicted loop. -/
lemma convictedStep_skip {st : St} {r : Row}
    (h : parse_disposition r.remark ≠ Disp.CONVICTED) :
    convictedStep st r = st := by
  unfold convictedStep
  rw [if_neg h]

/-- The convicted loop is insensitive to non-convicted rows: folding over
the whole table equals folding over its convicted rows only. -/
lemma foldl_convictedStep_filter :
    ∀ (df : List Row) (st : St),
      df.foldl convictedStep st =
        (df.filter
          (fun r => decide (parse_disposition r.remark = Disp.CONVICTED))).foldl
          convictedStep st := by
  intro df
  induction df with
  | nil => intro st; rfl
  | cons r t ih =>
    intro st
    by_cases h : parse_disposition r.remark = Disp.CONVICTED
    · rw [List.foldl_cons, ih,
        show (r :: t).filter
            (fun r => decide (parse_disposition r.remark = Disp.CONVICTED)) =
          r :: t.filter
            (fun r => decide (parse_disposition r.remark = Disp.CONVICTED)) by
          simp [List.filter_cons, h],
        List.foldl_cons]
    · rw [List.foldl_cons, convictedStep_skip h, ih,
        show (r :: t).filter
            (fun r => decide (parse_disposition r.remark = Disp.CONVICTED)) =
          t.filter
            (fun r => decide (parse_disposition r.remark = Disp.CONVICTED)) by
          simp [List.filter_cons, h]]

/-- A mostly-empty row whose remark is DISMISSED, disposed March 2025. -/
def rowDismissed : Row :=
  { caseid := none
    charge := []
    victim := []
    remark := "DISMISSED".toList
    gender := []
    sentence := []
    age := none
    dateArr := none
    dateDisp := some (3, 2025) }

/-- C5 counterexample: in Disposed mode a row whose disposition is
DISMISSED — not CONVICTED — still increments a statutory breakdown cell:
on a template holding only `Sheet8`, its statutory dismissed cell `F18`
(charge classifies to statutory row 18) goes from empty to 1. -/
theorem dismissed_row_increments_statutory_cell :
    (fillAllSheets
        { sheetnames := ["Sheet8"], cells := fun _ _ _ => CellVal.empty }
        [rowDismissed] Mode.Disposed).cells "Sheet8" "F" 18 = CellVal.num 1 ∧
      parse_disposition rowDismissed.remark ≠ Disp.CONVICTED := by
  constructor
  · decide
  · decide

/-- C5 amended: in Disposed mode the sentence-kind / age-band / gender /
juvenile breakdowns (the convicted loop, sheets 4, 5, 7, 9 and the
misdirected Sheet-6 write) are computed only for CONVICTED rows — the
loop is unchanged when non-convicted rows are deleted; but the statutory
classification is not confined to convicted rows: in the Sheet-8 loop a
CONVICTED row increments column E, a DISMISSED row increments the
dismissed column F, and only NOLLE/OTHER rows leave Sheet 8 untouched. -/
theorem convicted_only_demographics_but_statutory_dismissed :
    (∀ (df : List Row) (st : St),
      df.foldl convictedStep st =
        (df.filter
          (fun r => decide (parse_disposition r.remark = Disp.CONVICTED))).foldl
          convictedStep st) ∧
    (∀ (w : Workbook) (r : Row), parse_disposition r.remark = Disp.CONVICTED →
      sheet8Step Mode.Disposed w r =
        incrAt w "Sheet8" "E" (classify_statutory_sheet8 r.charge)) ∧
    (∀ (w : Workbook) (r : Row), parse_disposition r.remark = Disp.DISMISSED →
      sheet8Step Mode.Disposed w r =
        incrAt w "Sheet8" "F" (classify_statutory_sheet8 r.charge)) ∧
    (∀ (w : Workbook) (r : Row),
      parse_disposition r.remark = Disp.NOLLE ∨
        parse_disposition r.remark = Disp.OTHER →
      sheet8Step Mode.Disposed w r = w) := by
  refine ⟨foldl_convictedStep_filter, fun w r h => ?_, fun w r h => ?_,
    fun w r h => ?_⟩
  · unfold sheet8Step
    rw [h]
  · unfold sheet8Step
    rw [h]
  · unfold sheet8Step
    rcases h with h | h <;> rw [h]

/-- C5 witness: concrete checks — a DISMISSED row is a no-op of the
convicted loop but increments Sheet-8 column F; a NOLLE row leaves
Sheet 8 alone. -/
theorem convicted_only_demographics_but_statutory_dismissed_witness :
    ([rowDismissed].foldl convictedStep
        { wb := { sheetnames := ["Sheet8"], cells := fun _ _ _ => CellVal.empty },
          ws := none } =
      ([rowDismissed].filter
        (fun r => decide (parse_disposition r.remark = Disp.CONVICTED))).foldl
        convictedStep
        { wb := { sheetnames := ["Sheet8"], cells := fun _ _ _ => CellVal.empty },
          ws := none }) ∧
    sheet8Step Mode.Disposed
        { sheetnames := ["Sheet8"], cells := fun _ _ _ => CellVal.empty }
        rowDismissed =
      incrAt { sheetnames := ["Sheet8"], cells := fun _ _ _ => CellVal.empty }
        "Sheet8" "F" (classify_statutory_sheet8 rowDismissed.charge) :=
  ⟨convicted_only_demographics_but_statutory_dismissed.1 [rowDismissed] _,
   convicted_only_demographics_but_statutory_dismissed.2.2.1 _ rowDismissed
     (by decide)⟩

example : classify_crime_sheet1 "THEFT".toList "PC".toList = 45 := by decide
example : classify_crime_sheet1 "JAYWALKING".toList [] = 59 := by decide
example : classify_crime_sheet1 "ATTEMPT MURDER".toList [] = 35 := by decide
example : get_age_col_sheet5 (some 16) "M".toList = some "B" := by decide
example : get_age_col_sheet5 none "M".toList = none := by decide
example : parse_disposition "DISMISSED".toList = .DISMISSED := by decide
